import Mathlib

/-!
Verification of the staleness-resolution engine of
`src/workflow/snakemake_tools.py` (Docker image rebuild decision logic).

The Python module shells out to `git`, `docker` and reads small files; those
external effects are modelled by a `World` record holding the observable
outputs of every external call (stdout strings of the subprocesses, file
contents, the wall clock, and the behaviour of the external `datetime` /
`packaging.version` libraries). Each Python function is translated into a
pure Lean function over a `World`. Functions that can raise a Python
exception return `Except PyErr`; functions whose recursion is unbounded in
the source (the base-image chain walk) take an explicit fuel argument and
return `none` exactly when the source recursion would not have terminated
within that depth. Oracle-invocation counts (`calls` fields) count external
subprocess invocations / version-file reads, mirroring the call sites in the
source.

Python's built-in `str` methods (`strip`, `replace`, `split`, `startswith`,
`endswith`, `int(...)`) are modelled by structurally recursive functions on
`List Char` so that concrete runs reduce inside the kernel.
-/

set_option autoImplicit false
set_option maxRecDepth 16000

deriving instance DecidableEq for Except

namespace SnakemakeTools

/-- Model of Python `str.strip()`: drop leading and trailing whitespace. -/
def pyStrip (s : String) : String :=
  ⟨(((s.data.dropWhile Char.isWhitespace).reverse).dropWhile Char.isWhitespace).reverse⟩

/-- Model of Python `str.replace(c, "")` for a one-character pattern:
remove every occurrence of the character. -/
def pyReplaceChar (c : Char) (s : String) : String :=
  ⟨s.data.filter (fun x => x ≠ c)⟩

/-- Fuel-driven worker for `pyRemoveAll`; the fuel is the input length, which
bounds the number of steps since every step consumes at least one character
when the pattern is nonempty. -/
def removeAllAux (pat : List Char) : Nat → List Char → List Char
  | 0, l => l
  | _ + 1, [] => []
  | n + 1, c :: rest =>
    if pat.isPrefixOf (c :: rest) then removeAllAux pat n (List.drop (pat.length - 1) rest)
    else c :: removeAllAux pat n rest

/-- Model of Python `str.replace(pat, "")` for a nonempty pattern: remove
every (non-overlapping, leftmost-first) occurrence of `pat`. -/
def pyRemoveAll (pat s : String) : String :=
  ⟨removeAllAux pat.data s.data.length s.data⟩

/-- Worker for `pySplitChar`. -/
def splitCharAux (sep : Char) : List Char → List Char → List (List Char)
  | [], acc => [acc.reverse]
  | c :: rest, acc =>
    if c = sep then acc.reverse :: splitCharAux sep rest []
    else splitCharAux sep rest (c :: acc)

/-- Model of Python `str.split(sep)` for a one-character separator. -/
def pySplitChar (sep : Char) (s : String) : List String :=
  (splitCharAux sep s.data []).map (fun l => ⟨l⟩)

/-- Model of Python `str.startswith`. -/
def pyStartsWith (pre s : String) : Bool :=
  pre.data.isPrefixOf s.data

/-- Model of Python `str.endswith`. -/
def pyEndsWith (suf s : String) : Bool :=
  suf.data.isSuffixOf s.data

/-- Accumulating decimal parser: `none` if any character is not a digit. -/
def digitsToNatAux : List Char → Nat → Option Nat
  | [], acc => some acc
  | c :: rest, acc =>
    if c.isDigit then digitsToNatAux rest (acc * 10 + (c.toNat - 48))
    else none

/-- Model of Python `int(s)` (returning `none` where Python raises
`ValueError`): optional surrounding whitespace, optional sign, at least one
decimal digit. -/
def pyInt (s : String) : Option Int :=
  match (pyStrip s).data with
  | [] => none
  | '-' :: rest =>
    if rest = [] then none else (digitsToNatAux rest 0).map (fun n => -(n : Int))
  | '+' :: rest =>
    if rest = [] then none else (digitsToNatAux rest 0).map (fun n => (n : Int))
  | l => (digitsToNatAux l 0).map (fun n => (n : Int))

/-- `IMAGES_DIR = os.path.join("..", "docker")` (line 17 of the source). -/
def IMAGES_DIR : String := "../docker"

/-- Models `os.path.join` for the relative, slash-free components used in the
source: join with a single separator. -/
def joinPath (a b : String) : String := a ++ "/" ++ b

/-- Python exceptions that the translated functions can raise. -/
inductive PyErr where
  | valueError
  | indexError
  deriving DecidableEq

/-- The observable behaviour of everything outside the module: stdout of the
external `git`/`docker` subprocesses, the wall clock, file contents, and the
two external library functions (`datetime.strptime` and
`packaging.version` comparison) used by the module. -/
structure World where
  /-- `int(time.time())` -/
  now : Int
  /-- stdout of `git status --porcelain --untracked-files=no <filename>`:
  nonempty exactly when the path has staged or unstaged modifications
  (untracked files excluded by the flag). -/
  gitStatusOut : String → String
  /-- stdout of `git log -1 --format="%ad" --date=unix -- <filename>`. -/
  gitLogOut : String → String
  /-- First line of `../docker/<image>/Dockerfile` as read by `next(handle)`
  (trailing newline included). -/
  dockerfileLine1 : String → String
  /-- stdout of `docker inspect -f="{\x7b.Created\x7d}" singlecellopenproblems/<image>`;
  the second argument records whether a `docker pull` has happened already
  in this run (the pull can change what the local inspect reports). -/
  inspectCreatedOut : String → Bool → String
  /-- `datetime.datetime.strptime(s, "%Y-%m-%dT%H:%M:%S").timestamp()`:
  `some t` when the external library parses `s`, `none` on `ValueError`. -/
  strptime : String → Option Int
  /-- Whether `docker inspect singlecellopenproblems/<image>` exits 0. -/
  existsLocalB : String → Bool
  /-- Whether `docker manifest inspect singlecellopenproblems/<image>` exits 0. -/
  existsRemoteB : String → Bool
  /-- Content of `VERSION_FILE`, or `none` on `FileNotFoundError`. -/
  versionFile : Option String
  /-- `openproblems.__version__`. -/
  currVersion : String
  /-- `packaging.version.parse a > packaging.version.parse b`. -/
  versionGT : String → String → Bool
  /-- `os.listdir` of a directory. -/
  listdir : String → List String

/-- `git_file_diff` (lines 164-177): stdout of `git status --porcelain
--untracked-files=no`, stripped, compared with the empty string. -/
def git_file_diff (w : World) (filename : String) : Bool :=
  pyStrip (w.gitStatusOut filename) != ""

/-- Result of `git_file_age`: the returned value (or raised exception), a
flag recording whether `warnings.warn` was called, and the number of
external `git` invocations performed. -/
structure GRes where
  val : Except PyErr Int
  warned : Bool
  calls : Nat
  deriving DecidableEq

/-- The string `result` of line 198: git-log stdout, stripped, with double
quotes removed. -/
def gitLogStr (w : World) (filename : String) : String :=
  pyReplaceChar '"' (pyStrip (w.gitLogOut filename))

/-- `git_file_age` (lines 180-210): current time if the file has (un)staged
changes; else the parsed git-log timestamp; on a parse failure, `0` with a
warning when the output was empty, and `ValueError` otherwise. -/
def git_file_age (w : World) (filename : String) : GRes :=
  if git_file_diff w filename then
    ⟨.ok w.now, false, 1⟩
  else
    let result := gitLogStr w filename
    match pyInt result with
    | some t => ⟨.ok t, false, 2⟩
    | none =>
      if result = "" then ⟨.ok 0, true, 2⟩
      else ⟨.error .valueError, false, 2⟩

/-- C3: for every path, `git_file_age` returns the current wall-clock time
when the path has staged or unstaged modifications (untracked files are
excluded by the `--untracked-files=no` status flag modelled in
`World.gitStatusOut`); otherwise it returns the timestamp parsed from the
most recent commit touching the path; and when the path has no commit
history at all (empty git-log output) it emits a warning and returns `0`
without raising. -/
theorem C3_git_file_age_rule (w : World) (fn : String) :
    (git_file_diff w fn = true → git_file_age w fn = ⟨.ok w.now, false, 1⟩)
    ∧ (∀ t : Int, git_file_diff w fn = false → pyInt (gitLogStr w fn) = some t →
        git_file_age w fn = ⟨.ok t, false, 2⟩)
    ∧ (git_file_diff w fn = false → pyInt (gitLogStr w fn) = none →
        gitLogStr w fn = "" → git_file_age w fn = ⟨.ok 0, true, 2⟩) := by
  refine ⟨?_, ?_, ?_⟩
  · intro h
    simp [git_file_age, h]
  · intro t hdiff hparse
    simp [git_file_age, hdiff, hparse]
  · intro hdiff hparse hempty
    simp [git_file_age, hdiff, hparse, hempty]
    decide

/-- `docker_image_exists` (lines 83-109): exit status of `docker inspect`
(local) or `docker manifest inspect` (remote). -/
def docker_image_exists (w : World) (image : String) (isLocal : Bool) : Bool :=
  if isLocal then w.existsLocalB image else w.existsRemoteB image

/-- The string `date_string` of line 136: inspect stdout, stripped, with
double quotes removed, truncated at the first `.`. -/
def createdString (w : World) (image : String) (pulled : Bool) : String :=
  (pySplitChar '.' (pyReplaceChar '"' (pyStrip (w.inspectCreatedOut image pulled)))).headD ""

/-- Result of `docker_image_age`: the returned value (or raised exception),
whether a warning was emitted, how many `docker pull`s were run, and the
total number of external `docker` invocations. -/
structure DRes where
  val : Except PyErr Int
  warned : Bool
  pulls : Nat
  calls : Nat
  deriving DecidableEq

/-- `docker_image_age(image, pull_on_error=False)` (lines 124-161), the body
reached by the single recursive call after a pull: one local inspect, then
either the parsed timestamp, or `-1` with a warning on empty output, or
`ValueError`. `pulled` records whether a pull has already happened. -/
def dockerImageAgeNoPull (w : World) (image : String) (pulled : Bool) : DRes :=
  match w.strptime (createdString w image pulled) with
  | some d => ⟨.ok d, false, 0, 1⟩
  | none =>
    if createdString w image pulled = "" then ⟨.ok (-1), true, 0, 1⟩
    else ⟨.error .valueError, false, 0, 1⟩

/-- `docker_image_age(image)` with the default `pull_on_error=True`
(lines 124-161): inspect locally; on parse failure check remote existence,
and if the image exists remotely pull once and re-inspect with
`pull_on_error=False`; otherwise `-1` with a warning on empty output, and
`ValueError` on unparseable nonempty output. -/
def docker_image_age (w : World) (image : String) : DRes :=
  match w.strptime (createdString w image false) with
  | some d => ⟨.ok d, false, 0, 1⟩
  | none =>
    if docker_image_exists w image false then
      ⟨(dockerImageAgeNoPull w image true).val, (dockerImageAgeNoPull w image true).warned,
       (dockerImageAgeNoPull w image true).pulls + 1, (dockerImageAgeNoPull w image true).calls + 3⟩
    else if createdString w image false = "" then ⟨.ok (-1), true, 0, 2⟩
    else ⟨.error .valueError, false, 0, 2⟩

/-- C4: `docker_image_age` retries at most once. If the local parse fails
and the image exists remotely, it pulls exactly once and re-inspects with
retrying disabled; on the no-retry path a parse failure yields `-1` with a
warning when the inspect output is empty, and a raised `ValueError` when it
is nonempty. -/
theorem C4_docker_image_age_retry (w : World) (image : String) :
    (docker_image_age w image).pulls ≤ 1
    ∧ (w.strptime (createdString w image false) = none →
        docker_image_exists w image false = true →
        docker_image_age w image =
          ⟨(dockerImageAgeNoPull w image true).val,
           (dockerImageAgeNoPull w image true).warned, 1,
           (dockerImageAgeNoPull w image true).calls + 3⟩)
    ∧ (w.strptime (createdString w image false) = none →
        docker_image_exists w image false = false →
        createdString w image false = "" →
        docker_image_age w image = ⟨.ok (-1), true, 0, 2⟩)
    ∧ (w.strptime (createdString w image false) = none →
        docker_image_exists w image false = false →
        createdString w image false ≠ "" →
        docker_image_age w image = ⟨.error .valueError, false, 0, 2⟩)
    ∧ (∀ pulled, w.strptime (createdString w image pulled) = none →
        createdString w image pulled = "" →
        dockerImageAgeNoPull w image pulled = ⟨.ok (-1), true, 0, 1⟩)
    ∧ (∀ pulled, w.strptime (createdString w image pulled) = none →
        createdString w image pulled ≠ "" →
        dockerImageAgeNoPull w image pulled = ⟨.error .valueError, false, 0, 1⟩) := by
  have hp0 : ∀ pulled, (dockerImageAgeNoPull w image pulled).pulls = 0 := by
    intro pulled
    unfold dockerImageAgeNoPull
    split
    · rfl
    · split <;> rfl
  refine ⟨?_, ?_, ?_, ?_, ?_, ?_⟩
  · unfold docker_image_age
    split
    · simp
    · split
      · simp [hp0]
      · split <;> simp
  · intro hparse hremote
    unfold docker_image_age
    rw [hparse]
    simp [hremote, hp0]
  · intro hparse hremote hempty
    unfold docker_image_age
    rw [hparse]
    simp [hremote, hempty]
  · intro hparse hremote hne
    unfold docker_image_age
    rw [hparse]
    simp [hremote, hne]
  · intro pulled hparse hempty
    unfold dockerImageAgeNoPull
    rw [hparse]
    simp [hempty]
  · intro pulled hparse hne
    unfold dockerImageAgeNoPull
    rw [hparse]
    simp [hne]

/-- `version_not_changed` (lines 224-236): `false` when the version file is
missing; otherwise `false` iff the current version is strictly newer than
the recorded build version. -/
def version_not_changed (w : World) : Bool :=
  match w.versionFile with
  | none => false
  | some s => !(w.versionGT w.currVersion (pyStrip s))

/-- `_docker_base` (lines 112-121): first line of the Dockerfile with
`"FROM "` removed; if it starts with `singlecellopenproblems`, the part
after the `/` and before any `:` names the managed base image (index `[1]`
raising `IndexError` when there is no `/`); otherwise the base is external
(`none`). -/
def _docker_base (w : World) (image : String) : Except PyErr (Option String) :=
  if pyStartsWith "singlecellopenproblems" (pyRemoveAll "FROM " (w.dockerfileLine1 image)) then
    match (pySplitChar '/'
        ((pySplitChar ':' (pyRemoveAll "FROM " (w.dockerfileLine1 image))).headD "")).get? 1 with
    | some b => .ok (some b)
    | none => .error .indexError
  else .ok none

/-- The glob `"{}/*".format(docker_path)` of line 216. -/
def imageGlob (image : String) : String :=
  joinPath (joinPath IMAGES_DIR image) "*"

/-- Combines a base image's recursive `docker_file_age` outcome with the
image's own git age `own` and git-call count `gc` (line 220: `result =
max(result, docker_file_age(base_image))`, propagating a raised error). -/
def dfaStep (own : Int) (gc : Nat) : Except PyErr Int × Nat → Except PyErr Int × Nat
  | (.error e, c) => (.error e, gc + c)
  | (.ok r, c) => (.ok (max own r), gc + c)

/-- `docker_file_age` (lines 213-221) with explicit fuel: the git age of the
image's directory, maxed with the base image's (recursive) spec age when
the base is managed. `none` exactly when the source recursion would not
terminate within `fuel` unfoldings; the `Nat` component counts git
invocations. -/
def docker_file_age (w : World) : Nat → String → Option (Except PyErr Int × Nat)
  | 0, _ => none
  | fuel + 1, image =>
    match (git_file_age w (imageGlob image)).val, _docker_base w image with
    | .error e, _ => some (.error e, (git_file_age w (imageGlob image)).calls)
    | .ok _, .error e => some (.error e, (git_file_age w (imageGlob image)).calls)
    | .ok own, .ok none => some (.ok own, (git_file_age w (imageGlob image)).calls)
    | .ok own, .ok (some base_image) =>
      (docker_file_age w fuel base_image).map
        (dfaStep own (git_file_age w (imageGlob image)).calls)

/-- Raising the fuel of a successful `docker_file_age` run does not change
its result. -/
theorem docker_file_age_fuel_mono (w : World) :
    ∀ n m : Nat, n ≤ m → ∀ image r, docker_file_age w n image = some r →
      docker_file_age w m image = some r := by
  intro n
  induction n with
  | zero =>
    intro m _ image r h
    simp [docker_file_age] at h
  | succ k ih =>
    intro m hnm image r h
    obtain ⟨l, rfl⟩ : ∃ l, m = l + 1 := ⟨m - 1, by omega⟩
    have hl : k ≤ l := by omega
    unfold docker_file_age at h ⊢
    cases hGit : (git_file_age w (imageGlob image)).val with
    | error e => rw [hGit] at h; exact h
    | ok own =>
      rw [hGit] at h
      cases hBase : _docker_base w image with
      | error e => rw [hBase] at h; exact h
      | ok ob =>
        rw [hBase] at h
        cases ob with
        | none => exact h
        | some b =>
          obtain ⟨rc, hrc, hmap⟩ := Option.map_eq_some'.mp h
          show Option.map _ (docker_file_age w l b) = some r
          rw [ih l hl b rc hrc]
          simp [hmap]

/-- The specification age of an image at a given fuel, when the computation
terminates without raising. -/
def dfaVal (w : World) (n : Nat) (image : String) : Option Int :=
  match docker_file_age w n image with
  | some (.ok v, _) => some v
  | _ => none

/-- One unfolding of the recursion: the spec age of an image with a managed
base is the max of its own directory's git age and the base's spec age. -/
theorem dfaVal_step (w : World) (n : Nat) (X B : String) (vX vB gX : Int) :
    _docker_base w X = .ok (some B) →
    (git_file_age w (imageGlob X)).val = .ok gX →
    dfaVal w n X = some vX → dfaVal w n B = some vB →
    vX = max gX vB := by
  intro hBase hGit hX hB
  cases n with
  | zero => simp [dfaVal, docker_file_age] at hX
  | succ k =>
    unfold dfaVal docker_file_age at hX
    rw [hGit, hBase] at hX
    simp only at hX
    cases hrec : docker_file_age w k B with
    | none => rw [hrec] at hX; simp at hX
    | some rc =>
      rw [hrec] at hX
      have hstab := docker_file_age_fuel_mono w k (k + 1) (by omega) B rc hrec
      unfold dfaVal at hB
      rw [hstab] at hB
      obtain ⟨er, c⟩ := rc
      cases er with
      | error e => simp [dfaStep] at hX
      | ok vb =>
        simp [dfaStep] at hX hB
        omega

/-- C5: specification age is monotone along the base chain. For an image
with managed base, `docker_file_age` is the max of the image's own git age
and the base's `docker_file_age`; consequently, for a chain `A → B → C`
(C based on B based on A), `spec_age(C) ≥ spec_age(B) ≥ spec_age(A)`. -/
theorem C5_spec_age_monotone (w : World) (n : Nat) (A B C : String)
    (vA vB vC gB gC : Int) :
    _docker_base w C = .ok (some B) → _docker_base w B = .ok (some A) →
    (git_file_age w (imageGlob C)).val = .ok gC →
    (git_file_age w (imageGlob B)).val = .ok gB →
    dfaVal w n A = some vA → dfaVal w n B = some vB → dfaVal w n C = some vC →
    vC = max gC vB ∧ vB ≤ vC ∧ vA ≤ vB := by
  intro hBC hAB hgC hgB hA hB hC
  have h1 := dfaVal_step w n C B vC vB gC hBC hgC hC hB
  have h2 := dfaVal_step w n B A vB vA gB hAB hgB hB hA
  refine ⟨h1, ?_, ?_⟩
  · rw [h1]; exact le_max_right _ _
  · rw [h2]; exact le_max_right _ _

/-- The three branches of the conditional on lines 265-278, distinguished in
the source by the diagnostic printed to stderr: `rebuild` prints
"rebuilding", `refresh` prints "refreshing source code only", and
`missingBuild` prints "building". -/
inductive Decision where
  | rebuild
  | refresh
  | missingBuild
  deriving DecidableEq

/-- The decision rule of lines 263-278 as a pure function of the five
oracle-derived inputs: `spec_age > reg_age or code_changed` gives Rebuild;
else local-or-remote existence gives Refresh; else MissingBuild. -/
def decisionOf (spec_age reg_age : Int)
    (code_changed exists_local exists_remote : Bool) : Decision :=
  if spec_age > reg_age ∨ code_changed then .rebuild
  else if exists_local ∨ exists_remote then .refresh
  else .missingBuild

/-- The evidence-marker path returned for each decision (lines 249-250 and
268, 274, 278): `.docker_update` for Refresh, `.docker_build` for both
Rebuild and MissingBuild. -/
def markerOf (image : String) (d : Decision) : String :=
  match d with
  | .refresh => joinPath (joinPath IMAGES_DIR image) ".docker_update"
  | _ => joinPath (joinPath IMAGES_DIR image) ".docker_build"

/-- The four marker filenames removed per image directory at process start
(line 325). -/
def marker_filenames : List String :=
  [".docker_push", ".docker_pull", ".docker_build", ".docker_update"]

/-- The body of `docker_image_marker` (lines 244-280) without its
`functools.lru_cache` layer (modelled separately in `docker_image_marker`):
computes `docker_file_age` (propagating fuel exhaustion and errors) and
`docker_image_age` (propagating errors), reads the version file, and takes
the three-way branch, returning the marker path together with the branch
taken (observable as the stderr diagnostic) and the total number of oracle
invocations (the `+ 1` is the version-file read; the existence checks on
line 269-271 are short-circuited). -/
def docker_image_marker_compute (w : World) (fuel : Nat) (image : String) :
    Option (Except PyErr (String × Decision) × Nat) :=
  match docker_file_age w fuel image with
  | none => none
  | some (.error e, c) => some (.error e, c)
  | some (.ok dockerfile_timestamp, c) =>
    match (docker_image_age w image).val with
    | .error e => some (.error e, c + (docker_image_age w image).calls)
    | .ok docker_image_timestamp =>
      if dockerfile_timestamp > docker_image_timestamp ∨ !version_not_changed w then
        some (.ok (joinPath (joinPath IMAGES_DIR image) ".docker_build", .rebuild),
          c + (docker_image_age w image).calls + 1)
      else if docker_image_exists w image true then
        some (.ok (joinPath (joinPath IMAGES_DIR image) ".docker_update", .refresh),
          c + (docker_image_age w image).calls + 1 + 1)
      else if docker_image_exists w image false then
        some (.ok (joinPath (joinPath IMAGES_DIR image) ".docker_update", .refresh),
          c + (docker_image_age w image).calls + 1 + 2)
      else
        some (.ok (joinPath (joinPath IMAGES_DIR image) ".docker_build", .missingBuild),
          c + (docker_image_age w image).calls + 1 + 2)

/-- Lookup in the explicit memo table that models the
`functools.lru_cache(maxsize=None)` dictionary keyed by the image name. -/
def cacheLookup : List (String × String) → String → Option String
  | [], _ => none
  | (k, v) :: rest, image => if k = image then some v else cacheLookup rest image

/-- `docker_image_marker` (lines 244-280) with its
`functools.lru_cache(maxsize=None)` decorator modelled as an explicit memo
table threaded through the call: a cache hit returns the stored marker with
zero oracle invocations; a miss runs the full computation and stores the
result (`lru_cache` does not cache raised exceptions). -/
def docker_image_marker (w : World) (fuel : Nat)
    (cache : List (String × String)) (image : String) :
    Option (Except PyErr String × List (String × String) × Nat) :=
  match cacheLookup cache image with
  | some v => some (.ok v, cache, 0)
  | none =>
    match docker_image_marker_compute w fuel image with
    | none => none
    | some (.error e, n) => some (.error e, cache, n)
    | some (.ok (v, _), n) => some (.ok v, (image, v) :: cache, n)

/-- A concrete world: no uncommitted changes, git-log reports timestamp 100,
a two-image chain `python → base → (external ubuntu root)`, local inspect
parses to 500, image exists locally but not remotely, version unchanged. -/
def w0 : World where
  now := 1000
  gitStatusOut := fun _ => ""
  gitLogOut := fun _ => "\"100\"\n"
  dockerfileLine1 := fun i =>
    if i = "python" then "FROM singlecellopenproblems/base:latest\n"
    else "FROM ubuntu:20.04\n"
  inspectCreatedOut := fun _ _ => "\"2021-01-01T00:00:00.000000000Z\"\n"
  strptime := fun s => if s = "2021-01-01T00:00:00" then some 500 else none
  existsLocalB := fun _ => true
  existsRemoteB := fun _ => false
  versionFile := some "1.0\n"
  currVersion := "1.0"
  versionGT := fun _ _ => false
  listdir := fun _ => ["Dockerfile", "requirements.txt", "r-requirements.txt", "README.md"]

/-- Witness for C3: in `w0` the path is clean and git log yields 100. -/
theorem C3_git_file_age_rule_witness :
    git_file_diff w0 "../docker/python/*" = false
    ∧ pyInt (gitLogStr w0 "../docker/python/*") = some 100
    ∧ git_file_age w0 "../docker/python/*" = ⟨.ok 100, false, 2⟩ :=
  ⟨by decide, by decide,
    (C3_git_file_age_rule w0 "../docker/python/*").2.1 100 (by decide) (by decide)⟩

/-- A concrete world exercising the pull-and-retry path: the local inspect
is empty before the pull and parseable (to 777) after it, and the image
exists remotely. -/
def w4 : World where
  now := 1000
  gitStatusOut := fun _ => ""
  gitLogOut := fun _ => "\"100\"\n"
  dockerfileLine1 := fun _ => "FROM ubuntu:20.04\n"
  inspectCreatedOut := fun _ pulled =>
    if pulled then "\"2021-01-01T00:00:00.000000000Z\"\n" else ""
  strptime := fun s => if s = "2021-01-01T00:00:00" then some 777 else none
  existsLocalB := fun _ => false
  existsRemoteB := fun _ => true
  versionFile := some "1.0\n"
  currVersion := "1.0"
  versionGT := fun _ _ => false
  listdir := fun _ => ["Dockerfile"]

/-- Witness for C4: in `w4` the first parse fails, the image exists
remotely, and the pull-then-reinspect path returns the post-pull timestamp
with exactly one pull. -/
theorem C4_docker_image_age_retry_witness :
    w4.strptime (createdString w4 "img" false) = none
    ∧ docker_image_exists w4 "img" false = true
    ∧ docker_image_age w4 "img" = ⟨.ok 777, false, 1, 4⟩ :=
  ⟨by decide, by decide, by
    have h := (C4_docker_image_age_retry w4 "img").2.1 (by decide) (by decide)
    rw [h]; decide⟩

/-- C1: the staleness decision follows the three-way rule — Rebuild iff
`spec_age > reg_age` or the code-version gate is open; else Refresh iff the
image exists locally or remotely; else MissingBuild — and
`docker_image_marker_compute` resolves every image exactly by this pure
function of `(spec_age, reg_age, code_changed, exists_local,
exists_remote)`, returning the corresponding marker. -/
theorem C1_decision_rule :
    (∀ (s r : Int) (cc el er : Bool),
      ((decisionOf s r cc el er = .rebuild) ↔ (r < s ∨ cc = true))
      ∧ ((decisionOf s r cc el er = .refresh) ↔
          (s ≤ r ∧ cc = false ∧ (el = true ∨ er = true)))
      ∧ ((decisionOf s r cc el er = .missingBuild) ↔
          (s ≤ r ∧ cc = false ∧ el = false ∧ er = false)))
    ∧ (∀ (w : World) (fuel : Nat) (image : String) (s : Int) (c : Nat) (r : Int),
        docker_file_age w fuel image = some (.ok s, c) →
        (docker_image_age w image).val = .ok r →
        ∃ n, docker_image_marker_compute w fuel image =
          some (.ok (markerOf image
              (decisionOf s r (!version_not_changed w)
                (docker_image_exists w image true) (docker_image_exists w image false)),
            decisionOf s r (!version_not_changed w)
              (docker_image_exists w image true) (docker_image_exists w image false)), n)) := by
  constructor
  · intro s r cc el er
    cases cc <;> cases el <;> cases er <;>
      (unfold decisionOf; split_ifs <;> simp_all)
  · intro w fuel image s c r hdfa hdia
    unfold docker_image_marker_compute
    rw [hdfa, hdia]
    by_cases h1 : r < s ∨ version_not_changed w = false
    · simp [decisionOf, markerOf, h1]
    · by_cases h2 : docker_image_exists w image true = true
      · simp [decisionOf, markerOf, h1, h2]
      · by_cases h3 : docker_image_exists w image false = true
        · simp [decisionOf, markerOf, h1, h2, h3]
        · simp [decisionOf, markerOf, h1, h2, h3]

/-- Witness for C1: in `w0`, image `python` has spec age 100, registry age
500, closed gate, and exists locally, so the Refresh marker is produced. -/
theorem C1_decision_rule_witness :
    docker_file_age w0 2 "python" = some (.ok 100, 4)
    ∧ (docker_image_age w0 "python").val = .ok 500
    ∧ (∃ n, docker_image_marker_compute w0 2 "python" =
        some (.ok (markerOf "python"
            (decisionOf 100 500 (!version_not_changed w0)
              (docker_image_exists w0 "python" true) (docker_image_exists w0 "python" false)),
          decisionOf 100 500 (!version_not_changed w0)
            (docker_image_exists w0 "python" true) (docker_image_exists w0 "python" false)), n)) :=
  ⟨by decide, by decide,
    C1_decision_rule.2 w0 2 "python" 100 4 500 (by decide) (by decide)⟩

/-- C10: whenever the registry age oracle has returned the ABSENT sentinel
`-1` and the specification age is non-negative, the first condition
`spec_age > reg_age` holds and the decision is Rebuild; the MissingBuild
branch is reachable only when `reg_age ≥ spec_age` and the image exists
neither locally nor remotely. -/
theorem C10_absent_forces_rebuild (s r : Int) (cc el er : Bool) :
    (r = -1 → 0 ≤ s → decisionOf s r cc el er = .rebuild)
    ∧ (decisionOf s r cc el er = .missingBuild →
        s ≤ r ∧ cc = false ∧ el = false ∧ er = false) := by
  constructor
  · rintro rfl hs
    unfold decisionOf
    rw [if_pos]
    left
    omega
  · intro h
    cases cc <;> cases el <;> cases er <;>
      (unfold decisionOf at h; split_ifs at h <;> simp_all)

/-- Witness for C10: with spec age 5 and registry sentinel `-1` the decision
is Rebuild regardless of the existence flags. -/
theorem C10_absent_forces_rebuild_witness :
    (-1 : Int) = -1 ∧ (0 : Int) ≤ 5
    ∧ decisionOf 5 (-1) false true true = .rebuild :=
  ⟨rfl, by decide, (C10_absent_forces_rebuild 5 (-1) false true true).1 rfl (by decide)⟩

/-- A concrete world with a three-image chain `c → b → a → (external)` and
per-directory git ages 60 (c), 70 (b), 50 (a). -/
def w5 : World where
  now := 1000
  gitStatusOut := fun _ => ""
  gitLogOut := fun f =>
    if f = "../docker/a/*" then "\"50\"\n"
    else if f = "../docker/b/*" then "\"70\"\n"
    else "\"60\"\n"
  dockerfileLine1 := fun i =>
    if i = "c" then "FROM singlecellopenproblems/b:latest\n"
    else if i = "b" then "FROM singlecellopenproblems/a:latest\n"
    else "FROM ubuntu:20.04\n"
  inspectCreatedOut := fun _ _ => "\"2021-01-01T00:00:00.000000000Z\"\n"
  strptime := fun s => if s = "2021-01-01T00:00:00" then some 500 else none
  existsLocalB := fun _ => true
  existsRemoteB := fun _ => false
  versionFile := some "1.0\n"
  currVersion := "1.0"
  versionGT := fun _ _ => false
  listdir := fun _ => ["Dockerfile"]

/-- Witness for C5: along the chain `a → b → c` in `w5` the spec ages are
50, 70, 70: each level is the max of its own git age and its base's age. -/
theorem C5_spec_age_monotone_witness :
    _docker_base w5 "c" = .ok (some "b")
    ∧ _docker_base w5 "b" = .ok (some "a")
    ∧ dfaVal w5 3 "a" = some 50
    ∧ dfaVal w5 3 "b" = some 70
    ∧ dfaVal w5 3 "c" = some 70
    ∧ ((70 : Int) = max 60 70 ∧ (70 : Int) ≤ 70 ∧ (50 : Int) ≤ 70) :=
  ⟨by decide, by decide, by decide, by decide, by decide,
    C5_spec_age_monotone w5 3 "a" "b" "c" 50 70 70 70 60
      (by decide) (by decide) (by decide) (by decide)
      (by decide) (by decide) (by decide)⟩

/-- A concrete world realising Scenario 3 of the spec: spec age 100, image
absent everywhere (local inspect output empty, parse fails, no remote copy,
so the registry age oracle returns the sentinel `-1`), code gate closed. -/
def w2 : World where
  now := 1000
  gitStatusOut := fun _ => ""
  gitLogOut := fun _ => "\"100\"\n"
  dockerfileLine1 := fun _ => "FROM ubuntu:20.04\n"
  inspectCreatedOut := fun _ _ => ""
  strptime := fun _ => none
  existsLocalB := fun _ => false
  existsRemoteB := fun _ => false
  versionFile := some "1.0\n"
  currVersion := "1.0"
  versionGT := fun _ _ => false
  listdir := fun _ => ["Dockerfile"]

/-- Counterexample for C2: at spec age 100, registry sentinel `-1`, closed
gate and no copies anywhere, the classifier takes the Rebuild branch (the
first condition `100 > -1` already holds), not the MissingBuild branch. -/
theorem C2_counterexample :
    (docker_image_age w2 "img").val = .ok (-1)
    ∧ decisionOf 100 (-1) false false false = .rebuild
    ∧ (decisionOf 100 (-1) false false false == Decision.missingBuild) = false
    ∧ docker_image_marker_compute w2 1 "img" =
        some (.ok ("../docker/img/.docker_build", .rebuild), 5) := by
  decide

/-- C2 amended: when the artifact is absent everywhere (spec_age 100,
reg_age the ABSENT sentinel `-1`, code gate closed, no local or remote
copy), the decision is Rebuild — reached through the first branch because
`100 > -1` — and the resulting marker is `.docker_build`. -/
theorem C2_amended_rebuild :
    decisionOf 100 (-1) false false false = .rebuild
    ∧ docker_image_marker_compute w2 1 "img" =
        some (.ok (markerOf "img" .rebuild, .rebuild), 5)
    ∧ (100 : Int) > -1 := by
  decide

/-- A concrete world reaching the MissingBuild branch: registry age 500 is
ahead of spec age 100, gate closed, yet the image exists neither locally
nor remotely. -/
def w8 : World where
  now := 1000
  gitStatusOut := fun _ => ""
  gitLogOut := fun _ => "\"100\"\n"
  dockerfileLine1 := fun _ => "FROM ubuntu:20.04\n"
  inspectCreatedOut := fun _ _ => "\"2021-01-01T00:00:00.000000000Z\"\n"
  strptime := fun s => if s = "2021-01-01T00:00:00" then some 500 else none
  existsLocalB := fun _ => false
  existsRemoteB := fun _ => false
  versionFile := some "1.0\n"
  currVersion := "1.0"
  versionGT := fun _ _ => false
  listdir := fun _ => ["Dockerfile"]

/-- Counterexample for C8: a Rebuild run (in `w2`) and a MissingBuild run
(in `w8`) return the same marker file `.docker_build`, so
`docker_image_marker` does not map Rebuild and MissingBuild to distinct
markers. -/
theorem C8_counterexample :
    docker_image_marker_compute w2 1 "img" =
      some (.ok ("../docker/img/.docker_build", .rebuild), 5)
    ∧ docker_image_marker_compute w8 1 "img" =
      some (.ok ("../docker/img/.docker_build", .missingBuild), 6)
    ∧ (markerOf "img" .rebuild == markerOf "img" .missingBuild) = true := by
  decide

/-- C8 amended: Refresh maps to its own distinct marker `.docker_update`,
while Rebuild and MissingBuild share the `.docker_build` marker; the
process additionally manages the `.docker_pull` marker ("registry has been
pulled") and `.docker_push`, all cleared at startup. -/
theorem C8_amended_markers (image : String) :
    markerOf image .rebuild = joinPath (joinPath IMAGES_DIR image) ".docker_build"
    ∧ markerOf image .missingBuild = markerOf image .rebuild
    ∧ markerOf image .refresh = joinPath (joinPath IMAGES_DIR image) ".docker_update"
    ∧ (markerOf image .refresh == markerOf image .rebuild) = false
    ∧ ".docker_pull" ∈ marker_filenames
    ∧ ".docker_update" ∈ marker_filenames
    ∧ ".docker_build" ∈ marker_filenames
    ∧ ".docker_push" ∈ marker_filenames := by
  refine ⟨rfl, rfl, rfl, ?_, by decide, by decide, by decide, by decide⟩
  rw [beq_eq_false_iff_ne]
  intro h
  have hlen := congrArg String.length h
  have h1 : (".docker_update" : String).length = 14 := rfl
  have h2 : (".docker_build" : String).length = 13 := rfl
  simp only [markerOf, joinPath, String.length_append, h1, h2] at hlen
  omega

/-- C6: the memo table makes resolution idempotent per image name. If a
first call on an empty cache succeeds with marker `v`, cache `cache1` and
`n` oracle invocations, a second call on the resulting cache returns the
identical marker with zero further oracle invocations — so the two calls
combined invoke the oracles exactly as often as the single uncached
computation, whose result the stored marker equals. -/
theorem C6_memoization (w : World) (fuel : Nat) (image v : String)
    (cache1 : List (String × String)) (n : Nat) :
    docker_image_marker w fuel [] image = some (.ok v, cache1, n) →
    docker_image_marker w fuel cache1 image = some (.ok v, cache1, 0)
    ∧ (∃ d, docker_image_marker_compute w fuel image = some (.ok (v, d), n)) := by
  intro h
  unfold docker_image_marker at h
  simp only [cacheLookup] at h
  cases hc : docker_image_marker_compute w fuel image with
  | none => rw [hc] at h; simp at h
  | some p =>
    rw [hc] at h
    obtain ⟨ep, np⟩ := p
    cases ep with
    | error e => simp at h
    | ok pv =>
      obtain ⟨pvs, pd⟩ := pv
      simp only [Option.some.injEq, Prod.mk.injEq, Except.ok.injEq] at h
      obtain ⟨hv, hcache, hn⟩ := h
      constructor
      · unfold docker_image_marker
        rw [← hcache]
        simp [cacheLookup, hv]
      · subst hv
        subst hn
        exact ⟨pd, rfl⟩

/-- Witness for C6: in `w0`, the first resolution of `python` performs 7
oracle calls and stores the Refresh marker; the second returns it from the
cache with 0 calls. -/
theorem C6_memoization_witness :
    docker_image_marker w0 2 [] "python" =
      some (.ok "../docker/python/.docker_update",
        [("python", "../docker/python/.docker_update")], 7)
    ∧ docker_image_marker w0 2
        [("python", "../docker/python/.docker_update")] "python" =
      some (.ok "../docker/python/.docker_update",
        [("python", "../docker/python/.docker_update")], 0) :=
  ⟨by decide,
    (C6_memoization w0 2 "python" "../docker/python/.docker_update"
      [("python", "../docker/python/.docker_update")] 7 (by decide)).1⟩

/-- Lines 285-294 of `_docker_requirements`: the image's Dockerfile followed
by every file in the image directory whose name ends in
`requirements.txt`. -/
def reqsBase (w : World) (image : String) : List String :=
  joinPath (joinPath IMAGES_DIR image) "Dockerfile" ::
    ((w.listdir (joinPath IMAGES_DIR image)).filter
        (fun f => pyEndsWith "requirements.txt" f)).map
      (fun f => joinPath (joinPath IMAGES_DIR image) f)

/-- Lines 287-296: the base list, extended with the image's own evidence
marker when `include_self` is set (line 296 calls the cached
`docker_image_marker`, whose returned value equals the uncached
computation's — the memo layer changes cost, not value). -/
def selfRequirements (w : World) (fuel : Nat) (image : String) :
    Bool → Option (Except PyErr (List String))
  | false => some (.ok (reqsBase w image))
  | true =>
    match docker_image_marker_compute w fuel image with
    | none => none
    | some (.error e, _) => some (.error e)
    | some (.ok v, _) => some (.ok (reqsBase w image ++ [v.1]))

/-- `_docker_requirements` (lines 283-300) with explicit fuel: Dockerfile
and dependency-spec files, then the image's own evidence marker when
`include_self` is set, then recursively the base image's requirements with
`include_self=True`. `none` exactly when the source recursion would not
terminate within the fuel. -/
def _docker_requirements (w : World) :
    Nat → String → Bool → Option (Except PyErr (List String))
  | 0, _, _ => none
  | fuel + 1, image, include_self =>
    match selfRequirements w (fuel + 1) image include_self with
    | none => none
    | some (.error e) => some (.error e)
    | some (.ok reqs1) =>
      match _docker_base w image with
      | .error e => some (.error e)
      | .ok none => some (.ok reqs1)
      | .ok (some base_image) =>
        match _docker_requirements w fuel base_image true with
        | none => none
        | some (.error e) => some (.error e)
        | some (.ok rs) => some (.ok (reqs1 ++ rs))

/-- Membership in the base requirements list: the Dockerfile or a
`requirements.txt`-suffixed directory entry. -/
theorem mem_reqsBase (w : World) (image p : String) :
    p ∈ reqsBase w image ↔
      (p = joinPath (joinPath IMAGES_DIR image) "Dockerfile"
       ∨ (∃ f, f ∈ w.listdir (joinPath IMAGES_DIR image)
            ∧ pyEndsWith "requirements.txt" f = true
            ∧ p = joinPath (joinPath IMAGES_DIR image) f)) := by
  simp only [reqsBase, List.mem_cons, List.mem_map, List.mem_filter]
  constructor
  · rintro (h | ⟨f, ⟨hf, he⟩, hp⟩)
    · exact Or.inl h
    · exact Or.inr ⟨f, hf, he, hp.symm⟩
  · rintro (h | ⟨f, hf, he, hp⟩)
    · exact Or.inl h
    · exact Or.inr ⟨f, ⟨hf, he⟩, hp.symm⟩

/-- C7: a successful requirements aggregation contains exactly the image's
Dockerfile, the `requirements.txt`-suffixed files of its directory, its own
evidence marker iff `include_self` was requested, and the members of the
base image's recursive requirements (computed with `include_self=true`),
nothing else. -/
theorem C7_requirements (w : World) (fuel : Nat) (image : String) (s : Bool)
    (L : List String) :
    _docker_requirements w (fuel + 1) image s = some (.ok L) →
    ∀ p, p ∈ L ↔
      (p = joinPath (joinPath IMAGES_DIR image) "Dockerfile"
       ∨ (∃ f, f ∈ w.listdir (joinPath IMAGES_DIR image)
            ∧ pyEndsWith "requirements.txt" f = true
            ∧ p = joinPath (joinPath IMAGES_DIR image) f)
       ∨ (s = true ∧ ∃ d n, docker_image_marker_compute w (fuel + 1) image =
            some (.ok (p, d), n))
       ∨ (∃ B L2, _docker_base w image = .ok (some B)
            ∧ _docker_requirements w fuel B true = some (.ok L2) ∧ p ∈ L2)) := by
  intro h p
  unfold _docker_requirements at h
  cases s with
  | false =>
    cases hb : _docker_base w image with
    | error e => simp [selfRequirements, hb] at h
    | ok ob =>
      cases ob with
      | none =>
        simp only [selfRequirements, hb, Option.some.injEq, Except.ok.injEq] at h
        subst h
        rw [mem_reqsBase]
        simp
      | some b =>
        cases hr : _docker_requirements w fuel b true with
        | none => simp [selfRequirements, hb, hr] at h
        | some er =>
          cases er with
          | error e => simp [selfRequirements, hb, hr] at h
          | ok L2 =>
            simp only [selfRequirements, hb, hr, Option.some.injEq,
              Except.ok.injEq] at h
            subst h
            rw [List.mem_append, mem_reqsBase]
            simp [hr, or_assoc]
  | true =>
    cases hcm : docker_image_marker_compute w (fuel + 1) image with
    | none => simp [selfRequirements, hcm] at h
    | some q =>
      obtain ⟨qe, qn⟩ := q
      cases qe with
      | error e => simp [selfRequirements, hcm] at h
      | ok qv =>
        obtain ⟨qm, qd⟩ := qv
        cases hb : _docker_base w image with
        | error e => simp [selfRequirements, hcm, hb] at h
        | ok ob =>
          cases ob with
          | none =>
            simp only [selfRequirements, hcm, hb, Option.some.injEq,
              Except.ok.injEq] at h
            subst h
            rw [List.mem_append, mem_reqsBase]
            simp [hcm, or_assoc, @eq_comm String p qm]
          | some b =>
            cases hr : _docker_requirements w fuel b true with
            | none => simp [selfRequirements, hcm, hb, hr] at h
            | some er =>
              cases er with
              | error e => simp [selfRequirements, hcm, hb, hr] at h
              | ok L2 =>
                simp only [selfRequirements, hcm, hb, hr, Option.some.injEq,
                  Except.ok.injEq] at h
                subst h
                rw [List.mem_append, List.mem_append, mem_reqsBase]
                simp [hcm, hr, or_assoc, @eq_comm String p qm]

/-- The concrete requirements list computed for `python` in `w0`. -/
def reqsL0 : List String :=
  ["../docker/python/Dockerfile", "../docker/python/requirements.txt",
   "../docker/python/r-requirements.txt", "../docker/base/Dockerfile",
   "../docker/base/requirements.txt", "../docker/base/r-requirements.txt",
   "../docker/base/.docker_update"]

/-- Witness for C7: in `w0`, `python`'s requirements (without its own
marker) contain its Dockerfile. -/
theorem C7_requirements_witness :
    _docker_requirements w0 2 "python" false = some (.ok reqsL0)
    ∧ "../docker/python/Dockerfile" ∈ reqsL0 :=
  ⟨by decide,
    (C7_requirements w0 1 "python" false reqsL0 (by decide)
      "../docker/python/Dockerfile").mpr (Or.inl rfl)⟩

/-- The base-reference chain starting at `image` reaches a non-managed
external root (or a fatal recipe-parse error, which also stops the source
recursion) within `n` steps. -/
def rootedWithin (w : World) : Nat → String → Bool
  | 0, _ => false
  | n + 1, image =>
    match _docker_base w image with
    | .error _ => true
    | .ok none => true
    | .ok (some b) => rootedWithin w n b

/-- A rooted chain makes the spec-age walk terminate within the same fuel. -/
theorem rooted_dfa_terminates (w : World) :
    ∀ n image, rootedWithin w n image = true → docker_file_age w n image ≠ none := by
  intro n
  induction n with
  | zero => intro image h; simp [rootedWithin] at h
  | succ k ih =>
    intro image h
    unfold rootedWithin at h
    unfold docker_file_age
    cases hGit : (git_file_age w (imageGlob image)).val with
    | error e => simp
    | ok own =>
      cases hb : _docker_base w image with
      | error e => simp
      | ok ob =>
        cases ob with
        | none => simp
        | some b =>
          rw [hb] at h
          simp only [ne_eq, Option.map_eq_none']
          exact ih b h

/-- A rooted chain makes the marker computation terminate within the same
fuel. -/
theorem rooted_marker_terminates (w : World) (n : Nat) (image : String) :
    rootedWithin w n image = true →
    docker_image_marker_compute w n image ≠ none := by
  intro h
  unfold docker_image_marker_compute
  cases hd : docker_file_age w n image with
  | none => exact absurd hd (rooted_dfa_terminates w n image h)
  | some pr =>
    obtain ⟨pe, pc⟩ := pr
    cases pe with
    | error e => simp
    | ok v =>
      cases hv : (docker_image_age w image).val with
      | error e => simp
      | ok r =>
        by_cases h1 : r < v ∨ version_not_changed w = false
        · simp [h1]
        · by_cases h2 : docker_image_exists w image true = true
          · simp [h1, h2]
          · by_cases h3 : docker_image_exists w image false = true
            · simp [h1, h2, h3]
            · simp [h1, h2, h3]

/-- A rooted chain makes the requirements walk terminate within the same
fuel, for either value of `include_self`. -/
theorem rooted_reqs_terminate (w : World) :
    ∀ n image, rootedWithin w n image = true →
      ∀ s, _docker_requirements w n image s ≠ none := by
  intro n
  induction n with
  | zero => intro image h; simp [rootedWithin] at h
  | succ k ih =>
    intro image h s
    unfold _docker_requirements
    cases hs : selfRequirements w (k + 1) image s with
    | none =>
      exfalso
      cases s with
      | false => simp [selfRequirements] at hs
      | true =>
        unfold selfRequirements at hs
        cases hcm : docker_image_marker_compute w (k + 1) image with
        | none => exact rooted_marker_terminates w (k + 1) image h hcm
        | some q =>
          rw [hcm] at hs
          obtain ⟨qe, qn⟩ := q
          cases qe <;> simp at hs
    | some er =>
      cases er with
      | error e => simp
      | ok reqs1 =>
        cases hb : _docker_base w image with
        | error e => simp
        | ok ob =>
          cases ob with
          | none => simp
          | some b =>
            unfold rootedWithin at h
            rw [hb] at h
            cases hr : _docker_requirements w k b true with
            | none => exact absurd hr (ih b h true)
            | some er2 => cases er2 <;> simp [hr]

/-- A world whose recipe declares every image to be based on the managed
image `x`, so `x`'s base chain is the cycle `x → x → ...`. -/
def wcyc : World where
  now := 1000
  gitStatusOut := fun _ => ""
  gitLogOut := fun _ => ""
  dockerfileLine1 := fun _ => "FROM singlecellopenproblems/x:latest\n"
  inspectCreatedOut := fun _ _ => ""
  strptime := fun _ => none
  existsLocalB := fun _ => false
  existsRemoteB := fun _ => false
  versionFile := some "1.0\n"
  currVersion := "1.0"
  versionGT := fun _ _ => false
  listdir := fun _ => ["Dockerfile"]

/-- On the cyclic declaration, the spec-age walk exhausts any fuel. -/
theorem cyc_dfa_none : ∀ n, docker_file_age wcyc n "x" = none := by
  intro n
  induction n with
  | zero => rfl
  | succ k ih =>
    unfold docker_file_age
    rw [show (git_file_age wcyc (imageGlob "x")).val = .ok 0 from by decide,
      show _docker_base wcyc "x" = .ok (some "x") from by decide]
    simp [ih]

/-- On the cyclic declaration, the requirements walk exhausts any fuel. -/
theorem cyc_reqs_none : ∀ n s, _docker_requirements wcyc n "x" s = none := by
  intro n
  induction n with
  | zero => intro s; rfl
  | succ k ih =>
    intro s
    have hcm : docker_image_marker_compute wcyc (k + 1) "x" = none := by
      unfold docker_image_marker_compute
      rw [cyc_dfa_none (k + 1)]
    unfold _docker_requirements
    cases s with
    | true => rw [show selfRequirements wcyc (k + 1) "x" true = none from by
        unfold selfRequirements; rw [hcm]]
    | false =>
      rw [show selfRequirements wcyc (k + 1) "x" false =
          some (.ok (reqsBase wcyc "x")) from rfl,
        show _docker_base wcyc "x" = .ok (some "x") from by decide]
      simp [ih]

/-- C9: whenever the base-reference chain is acyclic — it reaches a
non-managed root (or a parse failure, which also stops the source) after
finitely many steps, with no bound imposed on the chain length `n` — the
recursive walks `docker_file_age` and `_docker_requirements` terminate
within fuel `n`; on the cyclic base declaration of `wcyc` (image `x` based
on itself) both recursions exhaust every fuel, i.e. the source recursion
does not terminate. -/
theorem C9_chain_termination :
    (∀ (w : World) (n : Nat) (image : String), rootedWithin w n image = true →
      docker_file_age w n image ≠ none
      ∧ ∀ s, _docker_requirements w n image s ≠ none)
    ∧ (∀ n : Nat, docker_file_age wcyc n "x" = none
        ∧ ∀ s, _docker_requirements wcyc n "x" s = none) :=
  ⟨fun w n image h =>
    ⟨rooted_dfa_terminates w n image h, rooted_reqs_terminate w n image h⟩,
   fun n => ⟨cyc_dfa_none n, cyc_reqs_none n⟩⟩

/-- Witness for C9: the two-step chain `python → base → (external)` in `w0`
is rooted within fuel 2 and both walks terminate there. -/
theorem C9_chain_termination_witness :
    rootedWithin w0 2 "python" = true
    ∧ docker_file_age w0 2 "python" ≠ none
    ∧ _docker_requirements w0 2 "python" false ≠ none :=
  ⟨by decide,
    (C9_chain_termination.1 w0 2 "python" (by decide)).1,
    (C9_chain_termination.1 w0 2 "python" (by decide)).2 false⟩

end SnakemakeTools
